import Mathlib

/-!
Shallow embedding of the kar98k load generator (Go) for checking its
natural-language specification.  Go `float64` arithmetic is modelled over `ℚ`;
`time.Time` values are modelled as rational instants; transcendental functions
(`math.Exp`, `math.Log`) are abstracted as function parameters, since both the
code and the spec apply the same function symbol to the same argument.
-/

namespace Kar98k

/-- Go conversion from a float to an int truncates toward zero. -/
def goTrunc (q : ℚ) : ℤ := if 0 ≤ q then ⌊q⌋ else ⌈q⌉

namespace Pattern

/-- Embedding of `Engine.CalculateTPS` (pattern/engine.go).  The two multiplier
calls `e.poisson.Multiplier()` and `e.noise.Multiplier()` are passed as the
values they return. -/
def calculateTPS (baseTPS maxTPS scheduleMultiplier poissonMult noiseMult : ℚ) : ℚ :=
  let tps := baseTPS * scheduleMultiplier
  let tps := tps * poissonMult
  let tps := tps * noiseMult
  let tps := if tps > maxTPS then maxTPS else tps
  let tps := if tps < 1 then 1 else tps
  tps

/-- The spec's formula, written from the spec's words:
`clamp(max(1, base_tps * schedule_mult * poisson_mult * noise_mult), 1, max_tps)`
with `clamp(x, lo, hi) = min hi (max lo x)`. -/
def clampSpec (x lo hi : ℚ) : ℚ := min hi (max lo x)

/-- The spec's claimed value of `calculate_tps`, from the spec's words. -/
def calculateTPSSpec (baseTPS maxTPS scheduleMultiplier poissonMult noiseMult : ℚ) : ℚ :=
  clampSpec (max 1 (baseTPS * scheduleMultiplier * poissonMult * noiseMult)) 1 maxTPS

/-- Configuration `config.Poisson` as used by `PoissonSpike`
(pattern/poisson.go). -/
structure PoissonCfg where
  enabled : Bool
  spikeFactor : ℚ
  lambda : ℚ
  minInterval : ℚ
  maxInterval : ℚ
  rampUp : ℚ
  rampDown : ℚ
  deriving Repr, DecidableEq

/-- Mutable state of `PoissonSpike` (pattern/poisson.go).  Instants are
rational times. -/
structure SpikeState where
  spiking : Bool
  spikeStart : ℚ
  spikePeak : ℚ
  spikeEnd : ℚ
  nextSpikeTime : ℚ
  manualSpike : Bool
  manualSpikeFactor : ℚ
  manualSpikeDuration : ℚ
  deriving Repr, DecidableEq

/-- Embedding of `PoissonSpike.scheduleNextSpike` (pattern/poisson.go).
`logf` stands for `math.Log`, and `u` for the value drawn by
`p.rng.Float64()`; the result is the new `nextSpikeTime`. -/
def scheduleNextSpike (logf : ℚ → ℚ) (cfg : PoissonCfg) (u now : ℚ) : ℚ :=
  let u' := if u = 0 then 1 / 10 ^ 10 else u
  let interval := -(logf u') / cfg.lambda
  let interval := if interval < cfg.minInterval then cfg.minInterval else interval
  let interval := if interval > cfg.maxInterval then cfg.maxInterval else interval
  now + interval

/-- Embedding of `PoissonSpike.calculateSpikeMultiplier` (pattern/poisson.go).
`expf` stands for `math.Exp`. -/
def calculateSpikeMultiplier (expf : ℚ → ℚ) (cfg : PoissonCfg) (st : SpikeState)
    (now : ℚ) : ℚ :=
  let spikeFactor :=
    if st.manualSpike = true ∧ 0 < st.manualSpikeFactor then st.manualSpikeFactor
    else cfg.spikeFactor
  if now < st.spikePeak then
    let elapsed := now - st.spikeStart
    let total := st.spikePeak - st.spikeStart
    let total := if total = 0 then 1 else total
    1 + (spikeFactor - 1) * (elapsed / total)
  else
    let elapsed := now - st.spikePeak
    let total := st.spikeEnd - st.spikePeak
    let total := if total = 0 then 1 else total
    1 + (spikeFactor - 1) * expf (-3 * (elapsed / total))

/-- Embedding of `PoissonSpike.startSpike` (pattern/poisson.go). -/
def startSpike (cfg : PoissonCfg) (st : SpikeState) (now : ℚ) : SpikeState :=
  { st with
    spiking := true
    spikeStart := now
    spikePeak := now + cfg.rampUp
    spikeEnd := now + cfg.rampUp + cfg.rampDown }

/-- Embedding of `PoissonSpike.Multiplier` (pattern/poisson.go), returning the
multiplier together with the updated spike state.  `time.Time.After` is a
strict comparison. -/
def multiplier (expf logf : ℚ → ℚ) (cfg : PoissonCfg) (u : ℚ) (st : SpikeState)
    (now : ℚ) : ℚ × SpikeState :=
  if cfg.enabled = false ∧ st.manualSpike = false then (1, st)
  else
    let st :=
      if st.spiking = true ∧ st.spikeEnd < now then
        { st with
          spiking := false
          manualSpike := false
          nextSpikeTime := scheduleNextSpike logf cfg u now }
      else st
    let st :=
      if cfg.enabled = true ∧ st.spiking = false ∧ st.manualSpike = false ∧
          st.nextSpikeTime < now then
        startSpike cfg st now
      else st
    if st.spiking = false then (1, st)
    else (calculateSpikeMultiplier expf cfg st now, st)

/-- With a nonnegative minimum interval and ordered clamps, the next spike is
never scheduled in the past. -/
lemma scheduleNextSpike_ge (logf : ℚ → ℚ) (cfg : PoissonCfg) (u now : ℚ)
    (hmin : 0 ≤ cfg.minInterval) (hmm : cfg.minInterval ≤ cfg.maxInterval) :
    now ≤ scheduleNextSpike logf cfg u now := by
  simp only [scheduleNextSpike, gt_iff_lt]
  split_ifs <;> linarith

end Pattern

namespace Worker

/-- Embedding of the state installed by `Pool.SetRate` (worker/pool.go) into the
`rate.Limiter`: `SetLimit(rate.Limit(tps))`, `SetBurst(int(tps / 10))`, then
`if Burst() < 1 { SetBurst(1) }`. -/
structure LimiterState where
  limit : ℚ
  burst : ℤ
  deriving Repr, DecidableEq

/-- Embedding of `Pool.SetRate` (worker/pool.go). -/
def setRate (tps : ℚ) : LimiterState :=
  let l : LimiterState := { limit := tps, burst := goTrunc (tps / 10) }
  if l.burst < 1 then { l with burst := 1 } else l

/-- State of `Pool` relevant to `Submit`/`Stop` (worker/pool.go): whether the
`jobs` channel has been closed, how many jobs sit in its buffer, and the
buffer's capacity (`cfg.QueueSize`), plus whether the context was cancelled. -/
structure PoolState where
  jobsClosed : Bool
  queueLen : ℕ
  queueCap : ℕ
  cancelled : Bool
  deriving Repr, DecidableEq

/-- Outcome of `Pool.Submit`: `accepted` returns `true` with the job enqueued,
`rejected` is the `default:` branch returning `false`, and `panicked` models
the Go runtime panic raised by a send on a closed channel. -/
inductive SubmitOutcome where
  | accepted (s : PoolState)
  | rejected
  | panicked
  deriving Repr, DecidableEq

/-- Embedding of `Pool.Submit` (worker/pool.go).  The `select` statement sends
on `p.jobs` when that communication can proceed and otherwise takes `default`.
In Go a send on a closed channel always "proceeds" and panics; a send on an
open buffered channel proceeds exactly when the buffer has room (worker
receives are not modelled as simultaneous). -/
def submit (s : PoolState) : SubmitOutcome :=
  if s.jobsClosed then .panicked
  else if s.queueLen < s.queueCap then .accepted { s with queueLen := s.queueLen + 1 }
  else .rejected

/-- Embedding of `Pool.Stop` (worker/pool.go): `p.cancel()` then
`close(p.jobs)`.  Closing an already-closed channel panics, modelled as
`none`; `wg.Wait()` and client `Close()` calls do not affect this state. -/
def stop (s : PoolState) : Option PoolState :=
  if s.jobsClosed then none
  else some { s with cancelled := true, jobsClosed := true }

end Worker

namespace Daemon

/-- State of `Daemon` relevant to the claims: the `status.Triggered` flag and
the worker pool's state. -/
structure DaemonState where
  triggered : Bool
  poolSt : Worker.PoolState
  deriving Repr, DecidableEq

/-- Embedding of `Daemon.Stop` (daemon/daemon.go) restricted to the
pool: `d.cancel()`, `ctrl.Stop`, `checker.Stop` and `pool.Drain` do not close
channels; `d.pool.Stop()` does, and its panic propagates (`none`). -/
def stop (d : DaemonState) : Option DaemonState :=
  (Worker.stop d.poolSt).map fun p => { d with poolSt := p }

/-- Embedding of `Daemon.Pause` (daemon/daemon.go): it sets
`d.status.Triggered = false` and logs; nothing else in the daemon or the
controller is touched. -/
def pause (d : DaemonState) : DaemonState :=
  { d with triggered := false }

end Daemon

namespace Discovery

/-- State of `Analyzer` (discovery/analyzer.go): parallel latency and
timestamp sequences, monotone totals, the window duration and the sample
cap. -/
structure Analyzer where
  latencies : List ℚ
  timestamps : List ℚ
  totalRequests : ℤ
  totalErrors : ℤ
  windowDuration : ℚ
  maxSamples : ℕ
  deriving Repr, DecidableEq

/-- Embedding of `NewAnalyzer` (discovery/analyzer.go). -/
def newAnalyzer (windowDuration : ℚ) : Analyzer :=
  ⟨[], [], 0, 0, windowDuration, 100000⟩

/-- Embedding of `Analyzer.RecordLatency` (discovery/analyzer.go); `now` is
the value of `time.Now()` at the call. -/
def recordLatency (a : Analyzer) (latencyMs : ℚ) (isError : Bool) (now : ℚ) :
    Analyzer :=
  let latencies := a.latencies ++ [latencyMs]
  let timestamps := a.timestamps ++ [now]
  let totalRequests := a.totalRequests + 1
  let totalErrors := if isError then a.totalErrors + 1 else a.totalErrors
  if a.maxSamples < latencies.length then
    let trimCount := a.maxSamples / 10
    { a with
      latencies := latencies.drop trimCount
      timestamps := timestamps.drop trimCount
      totalRequests := totalRequests
      totalErrors := totalErrors }
  else
    { a with
      latencies := latencies
      timestamps := timestamps
      totalRequests := totalRequests
      totalErrors := totalErrors }

/-- Embedding of `Analyzer.Reset` (discovery/analyzer.go). -/
def reset (a : Analyzer) : Analyzer :=
  { a with latencies := [], timestamps := [], totalRequests := 0, totalErrors := 0 }

/-- Embedding of `Analyzer.ResetWindow` (discovery/analyzer.go): clears the
window data but keeps the total counts. -/
def resetWindow (a : Analyzer) : Analyzer :=
  { a with latencies := [], timestamps := [] }

/-- The scan of `range a.timestamps` in `Analyzer.getWindowLatencies`,
looking for the first index whose timestamp is strictly after the cutoff
(`time.Time.After`); `i` is the running index. -/
def firstAfterAux (cutoff : ℚ) : List ℚ → ℕ → Option ℕ
  | [], _ => none
  | t :: rest, i => if cutoff < t then some i else firstAfterAux cutoff rest (i + 1)

/-- The index scan in `Analyzer.getWindowLatencies`: `startIdx` starts at `0`
and is set to the first index whose timestamp is strictly after the cutoff;
when no timestamp qualifies it remains `0`. -/
def firstAfterIdx (ts : List ℚ) (cutoff : ℚ) : ℕ :=
  match firstAfterAux cutoff ts 0 with
  | some i => i
  | none => 0

/-- Embedding of `Analyzer.getWindowLatencies` (discovery/analyzer.go). -/
def getWindowLatencies (a : Analyzer) (now : ℚ) : List ℚ :=
  if a.latencies = [] then []
  else
    let cutoff := now - a.windowDuration
    let startIdx := firstAfterIdx a.timestamps cutoff
    if a.latencies.length ≤ startIdx then []
    else a.latencies.drop startIdx

/-- The spec's window, modelled from the spec's words: the samples within the
window are exactly those whose timestamp satisfies `now − ts ≤ W`. -/
def specWindowLatencies (a : Analyzer) (now : ℚ) : List ℚ :=
  ((a.latencies.zip a.timestamps).filter
    (fun s => decide (now - s.2 ≤ a.windowDuration))).map Prod.fst

/-- Embedding of `percentile` (discovery/analyzer.go): sort ascending, take
the element at the truncated index `(n−1)·p/100`, clamped into range. -/
def percentile (data : List ℚ) (p : ℚ) : ℚ :=
  if data = [] then 0
  else
    let sorted := data.insertionSort (· ≤ ·)
    let index := goTrunc (((data.length : ℚ) - 1) * p / 100)
    let index := if index < 0 then 0 else index
    let index := if (data.length : ℤ) ≤ index then (data.length : ℤ) - 1 else index
    sorted.getD index.toNat 0

/-- Embedding of `Analyzer.GetP95Latency` (discovery/analyzer.go). -/
def getP95Latency (a : Analyzer) (now : ℚ) : ℚ :=
  let w := getWindowLatencies a now
  if w = [] then 0 else percentile w 95

/-- Embedding of `Analyzer.GetP99Latency` (discovery/analyzer.go). -/
def getP99Latency (a : Analyzer) (now : ℚ) : ℚ :=
  let w := getWindowLatencies a now
  if w = [] then 0 else percentile w 99

/-- Embedding of `Analyzer.GetAvgLatency` (discovery/analyzer.go). -/
def getAvgLatency (a : Analyzer) (now : ℚ) : ℚ :=
  let w := getWindowLatencies a now
  if w = [] then 0 else w.sum / (w.length : ℚ)

/-- Embedding of `Analyzer.GetErrorRate` (discovery/analyzer.go): the error
rate over all recorded requests, as a percentage. -/
def getErrorRate (a : Analyzer) : ℚ :=
  if a.totalRequests = 0 then 0
  else (a.totalErrors : ℚ) / (a.totalRequests : ℚ) * 100

/-- DiscoveryConfig fields used by the binary search
(discovery/controller.go). -/
structure DiscoveryCfg where
  minTPS : ℚ
  maxTPS : ℚ
  latencyLimitMs : ℤ
  errorRateLimit : ℚ
  convergenceRate : ℚ
  deriving Repr, DecidableEq

/-- Embedding of `Controller.isStable` (discovery/controller.go). -/
def isStable (cfg : DiscoveryCfg) (p95Latency errorRate : ℚ) : Bool :=
  decide (p95Latency ≤ (cfg.latencyLimitMs : ℚ)) &&
    decide (errorRate ≤ cfg.errorRateLimit)

/-- Discovery `State` (discovery/controller.go). -/
inductive DiscState where
  | idle
  | running
  | completed
  | failed
  deriving Repr, DecidableEq

/-- Search fields of the discovery `Controller` (discovery/controller.go). -/
structure SearchState where
  currentTPS : ℚ
  lowTPS : ℚ
  highTPS : ℚ
  lastStableTPS : ℚ
  breakingTPS : ℚ
  stepsCompleted : ℕ
  deriving Repr, DecidableEq

/-- The discovery `Result` produced by `Controller.run`
(discovery/controller.go). -/
structure DiscResult where
  sustainedTPS : ℚ
  breakingTPS : ℚ
  p95Latency : ℚ
  errorRate : ℚ
  stepsCompleted : ℕ
  deriving Repr, DecidableEq

/-- Terminal observation of a `Controller.run` goroutine: the controller's
`state` field and its `result` pointer when `run` returns. -/
structure RunOutcome where
  state : DiscState
  result : Option DiscResult
  deriving Repr, DecidableEq

/-- Embedding of `Controller.hasConverged` (discovery/controller.go). -/
def hasConverged (cfg : DiscoveryCfg) (s : SearchState) : Bool :=
  if s.lowTPS = 0 then false
  else decide ((s.highTPS - s.lowTPS) / s.lowTPS < cfg.convergenceRate)

/-- The final-result block of `Controller.run` after the loop breaks
(discovery/controller.go): the snapshot p95 and error rate are passed in as
`snapP95`, `snapErr`. -/
def finishRun (cfg : DiscoveryCfg) (snapP95 snapErr : ℚ) (s : SearchState) :
    RunOutcome :=
  let sustained := if s.lastStableTPS = 0 then cfg.minTPS else s.lastStableTPS
  let breaking := if s.breakingTPS = 0 then sustained * (12/10) else s.breakingTPS
  { state := .completed
    result := some ⟨sustained, breaking, snapP95, snapErr, s.stepsCompleted⟩ }

/-- One observable event per iteration of the binary-search loop in
`Controller.run`: `cancelTop` is the context cancellation observed by the
`select` at the top of the loop; `cancelMidStep` is `runStep` returning `nil`
(cancellation during a step); `step b` is a completed step whose
`StepResult.Stable` is `b`. -/
inductive RunEvent where
  | cancelTop
  | cancelMidStep
  | step (stable : Bool)
  deriving Repr, DecidableEq

/-- Embedding of the loop of `Controller.run` (discovery/controller.go) over a
trace of per-iteration events, starting from `state = StateRunning`.  The
deferred function at the top of `run` turns a still-`running` state into
`completed` on every return path; `none` means the trace ended before the
loop did. -/
def runLoop (cfg : DiscoveryCfg) (snapP95 snapErr : ℚ) :
    SearchState → List RunEvent → Option RunOutcome
  | _, [] => none
  | s, e :: rest =>
    match e with
    | .cancelTop => some { state := .failed, result := none }
    | .cancelMidStep =>
      if hasConverged cfg s then some (finishRun cfg snapP95 snapErr s)
      else some { state := .completed, result := none }
    | .step stable =>
      if hasConverged cfg s then some (finishRun cfg snapP95 snapErr s)
      else
        let s := { s with stepsCompleted := s.stepsCompleted + 1 }
        if stable then
          let s := { s with lastStableTPS := s.currentTPS, lowTPS := s.currentTPS }
          if s.highTPS ≤ s.currentTPS then some (finishRun cfg snapP95 snapErr s)
          else
            runLoop cfg snapP95 snapErr
              { s with currentTPS := (s.lowTPS + s.highTPS) / 2 } rest
        else
          let s := { s with breakingTPS := s.currentTPS, highTPS := s.currentTPS }
          runLoop cfg snapP95 snapErr
            { s with currentTPS := (s.lowTPS + s.highTPS) / 2 } rest

/-- Number of error records in a step's request trace; a record is
`(latency ms, isError, timestamp)`. -/
def errCount : List (ℚ × Bool × ℚ) → ℤ
  | [] => 0
  | r :: rest => (if r.2.1 then 1 else 0) + errCount rest

/-- The analyzer state at the end of a step of `Controller.runStep`
(discovery/controller.go): the step first calls `analyzer.ResetWindow()` and
the workers then record each request of the step. -/
def stepAnalyzer (a0 : Analyzer) (recs : List (ℚ × Bool × ℚ)) : Analyzer :=
  recs.foldl (fun a r => recordLatency a r.1 r.2.1 r.2.2) (resetWindow a0)

/-- The `Stable` flag computed at the end of `Controller.runStep`
(discovery/controller.go): `isStable(snapshot.P95Latency, snapshot.ErrorRate)`
on the analyzer state at step end. -/
def runStepStable (cfg : DiscoveryCfg) (a0 : Analyzer)
    (recs : List (ℚ × Bool × ℚ)) (now : ℚ) : Bool :=
  isStable cfg (getP95Latency (stepAnalyzer a0 recs) now)
    (getErrorRate (stepAnalyzer a0 recs))

end Discovery

namespace Controller

/-- A weighted target (config.Target fields used by selection,
controller/controller.go). -/
structure Target where
  name : String
  weight : ℤ
  deriving Repr, DecidableEq

/-- The cumulative scan of `Controller.selectTarget`
(controller/controller.go): walk the weighted targets accumulating weights
and return the first target whose cumulative weight exceeds the draw `r`. -/
def selectTargetLoop (r cumulative : ℤ) : List Target → Option Target
  | [] => none
  | t :: rest =>
    if r < cumulative + t.weight then some t
    else selectTargetLoop r (cumulative + t.weight) rest

/-- Embedding of `Controller.selectTarget` (controller/controller.go); `r`
stands for the draw `rng.Intn(totalWeight)`. -/
def selectTarget (weightedTargets : List Target) (r : ℤ) : Target :=
  if weightedTargets = [] then ⟨"", 0⟩
  else
    match selectTargetLoop r 0 weightedTargets with
    | some t => t
    | none => weightedTargets.headD ⟨"", 0⟩

/-- Embedding of the body of `Controller.submitJobs`
(controller/controller.go): up to ten iterations; each checks the context,
selects a target from the `i`-th draw, skips empty or unhealthy targets, and
submits, stopping on a full queue.  Returns the pool state and the number of
jobs submitted; `none` models a panic propagating out of `Pool.Submit`. -/
def submitJobsAux (wts : List Target) (healthy : String → Bool)
    (cancelled : Bool) (draws : List ℤ) :
    ℕ → ℕ → Worker.PoolState → ℕ → Option (Worker.PoolState × ℕ)
  | 0, _, p, k => some (p, k)
  | fuel + 1, i, p, k =>
    if cancelled then some (p, k)
    else
      let t := selectTarget wts (draws.getD i 0)
      if t.name = "" then submitJobsAux wts healthy cancelled draws fuel (i + 1) p k
      else if healthy t.name = false then
        submitJobsAux wts healthy cancelled draws fuel (i + 1) p k
      else
        match Worker.submit p with
        | .accepted p' => submitJobsAux wts healthy cancelled draws fuel (i + 1) p' (k + 1)
        | .rejected => some (p, k)
        | .panicked => none

/-- Embedding of `Controller.submitJobs` (controller/controller.go): the loop
runs for `i = 0, …, 9`. -/
def submitJobs (wts : List Target) (healthy : String → Bool) (cancelled : Bool)
    (draws : List ℤ) (p : Worker.PoolState) : Option (Worker.PoolState × ℕ) :=
  submitJobsAux wts healthy cancelled draws 10 0 p 0

/-- One tick of `Controller.generateLoop` (controller/controller.go) as seen
from the daemon: if the controller's context is cancelled the loop returns,
otherwise the tick calls `submitJobs`.  The function's inputs are the whole
daemon state, the controller's targets, health oracle and rng draws; note
that `d.triggered` is not among the values it reads. -/
def generateTick (d : Daemon.DaemonState) (wts : List Target)
    (healthy : String → Bool) (draws : List ℤ) : Option (Worker.PoolState × ℕ) :=
  if d.poolSt.cancelled then some (d.poolSt, 0)
  else submitJobs wts healthy d.poolSt.cancelled draws d.poolSt

end Controller

end Kar98k

namespace Kar98k

open Pattern

/-- C1 counterexample: with `base_tps = 1/2 > 0`, `max_tps = 1/2 ≥ base_tps` and
all three multipliers `1`, the code's `CalculateTPS` clamps to the maximum
first and then raises to the minimum `1`, returning `1`, while the spec's
`clamp(max(1, ·), 1, max_tps)` returns `1/2`; the returned value `1` is not
`≤ max_tps`, so the output does not lie in `[1, max_tps]`. -/
theorem calculateTPS_below_one_max_counterexample :
    calculateTPS (1/2) (1/2) 1 1 1 = 1 ∧
    calculateTPSSpec (1/2) (1/2) 1 1 1 = 1/2 ∧
    ¬ (calculateTPS (1/2) (1/2) 1 1 1 ≤ (1/2 : ℚ)) := by
  refine ⟨by norm_num [calculateTPS], by norm_num [calculateTPSSpec, clampSpec], ?_⟩
  norm_num [calculateTPS]

/-- C1 (amended): for every `base_tps > 0`, `max_tps ≥ base_tps` and `max_tps ≥ 1`,
and every combination of schedule, Poisson and noise multipliers,
`CalculateTPS` equals `clamp(max(1, base_tps * sched * poisson * noise), 1, max_tps)`
and its value lies in `[1, max_tps]`. -/
theorem calculateTPS_eq_clamp (baseTPS maxTPS s p n : ℚ)
    (hbase : 0 < baseTPS) (hmax : baseTPS ≤ maxTPS) (hone : 1 ≤ maxTPS) :
    calculateTPS baseTPS maxTPS s p n = calculateTPSSpec baseTPS maxTPS s p n ∧
    1 ≤ calculateTPS baseTPS maxTPS s p n ∧
    calculateTPS baseTPS maxTPS s p n ≤ maxTPS := by
  simp only [calculateTPS, calculateTPSSpec, clampSpec, min_def, max_def, gt_iff_lt]
  split_ifs <;> refine ⟨?_, ?_, ?_⟩ <;> linarith

/-- Witness for the amended C1 at `base_tps = 2`, `max_tps = 10`, all
multipliers `1`. -/
theorem calculateTPS_eq_clamp_witness :
    (0:ℚ) < 2 ∧ (2:ℚ) ≤ 10 ∧ (1:ℚ) ≤ 10 ∧
    (calculateTPS 2 10 1 1 1 = calculateTPSSpec 2 10 1 1 1 ∧
      1 ≤ calculateTPS 2 10 1 1 1 ∧ calculateTPS 2 10 1 1 1 ≤ 10) :=
  ⟨by norm_num, by norm_num, by norm_num,
    calculateTPS_eq_clamp 2 10 1 1 1 (by norm_num) (by norm_num) (by norm_num)⟩

/-- C8: after `SetRate(r)` with `r > 0`, the limiter's rate is `r` and its
burst is exactly `max(1, floor(r/10))`. -/
theorem setRate_limit_burst (r : ℚ) (hr : 0 < r) :
    (Worker.setRate r).limit = r ∧ (Worker.setRate r).burst = max 1 ⌊r / 10⌋ := by
  have h0 : (0:ℚ) ≤ r / 10 := by positivity
  have hT : goTrunc (r / 10) = ⌊r / 10⌋ := if_pos h0
  simp only [Worker.setRate, hT]
  split_ifs with h
  · refine ⟨rfl, ?_⟩
    show (1 : ℤ) = max 1 ⌊r / 10⌋
    rw [max_def, if_neg (not_le.mpr h)]
  · refine ⟨rfl, ?_⟩
    show ⌊r / 10⌋ = max 1 ⌊r / 10⌋
    rw [max_def, if_pos (not_lt.mp h)]

/-- Witness for C8 at `r = 25`: rate `25`, burst `max(1, 2) = 2`. -/
theorem setRate_limit_burst_witness :
    (0:ℚ) < 25 ∧
    ((Worker.setRate 25).limit = 25 ∧ (Worker.setRate 25).burst = max 1 ⌊(25:ℚ) / 10⌋) :=
  ⟨by norm_num, setRate_limit_burst 25 (by norm_num)⟩

/-- C3 counterexample: starting from a fresh pool (jobs channel open, empty
queue of capacity 8), the first `Stop` completes, and the second `Stop` call
panics (`close` of the already-closed `jobs` channel), rather than returning
immediately. -/
theorem stop_twice_counterexample :
    Worker.stop ⟨false, 0, 8, false⟩ = some ⟨true, 0, 8, true⟩ ∧
    Worker.stop ⟨true, 0, 8, true⟩ = none := by
  constructor <;> rfl

/-- C3 (amended): a second `Pool.Stop` after a completed `Stop` panics on
`close(p.jobs)` instead of returning; `Daemon.Stop`, which delegates to
`Pool.Stop`, panics likewise.  Stop is not idempotent. -/
theorem stop_not_idempotent (s s' : Worker.PoolState)
    (h : Worker.stop s = some s') :
    Worker.stop s' = none ∧
    ∀ t : Bool, Daemon.stop ⟨t, s'⟩ = none := by
  have hs : s' = { s with cancelled := true, jobsClosed := true } := by
    by_cases hc : s.jobsClosed
    · simp [Worker.stop, hc] at h
    · simpa [Worker.stop, hc] using h.symm
  subst hs
  exact ⟨by simp [Worker.stop], fun t => by simp [Daemon.stop, Worker.stop]⟩

/-- Witness for the amended C3 on a concrete fresh pool. -/
theorem stop_not_idempotent_witness :
    Worker.stop ⟨true, 0, 8, true⟩ = none ∧
    Daemon.stop ⟨true, ⟨true, 0, 8, true⟩⟩ = none :=
  ⟨(stop_not_idempotent ⟨false, 0, 8, false⟩ ⟨true, 0, 8, true⟩ (by rfl)).1,
    (stop_not_idempotent ⟨false, 0, 8, false⟩ ⟨true, 0, 8, true⟩ (by rfl)).2 true⟩

/-- C9: after `Stop` has completed, a `Submit` panics (send on the closed
`jobs` channel) instead of returning `false`; the `accepted = false` path is
taken only when the pool is open and its queue is full. -/
theorem submit_after_stop_panics (s s' : Worker.PoolState)
    (h : Worker.stop s = some s') :
    Worker.submit s' = .panicked ∧
    ∀ t : Worker.PoolState, Worker.submit t = .rejected →
      t.jobsClosed = false ∧ t.queueCap ≤ t.queueLen := by
  refine ⟨?_, ?_⟩
  · have hs : s'.jobsClosed = true := by
      by_cases hc : s.jobsClosed
      · simp [Worker.stop, hc] at h
      · simp [Worker.stop, hc] at h
        rw [← h]
    simp [Worker.submit, hs]
  · intro t ht
    by_cases hc : t.jobsClosed
    · simp [Worker.submit, hc] at ht
    · by_cases hq : t.queueLen < t.queueCap
      · simp [Worker.submit, hc, hq] at ht
      · exact ⟨by simpa using hc, not_lt.mp hq⟩

/-- Witness for C9 on a concrete stopped pool. -/
theorem submit_after_stop_panics_witness :
    Worker.submit ⟨true, 0, 8, true⟩ = .panicked :=
  (submit_after_stop_panics ⟨false, 0, 8, false⟩ ⟨true, 0, 8, true⟩ (by rfl)).1

/-- C7 counterexample: at `now = end` exactly, the code does not return to
idle (since `now.After(spikeEnd)` is strict), and it evaluates the decay
formula at progress `1`, returning `1 + (spike_factor − 1) · exp(−3)`, not
`1.0` as the claim's `now ≥ end` clause states.  Here `expf` stands for
`math.Exp`; its value at `−3` is `≈ 0.0498 > 0`, and the instance below takes
`expf (−3) = 1/20`; any positive value at `−3` exhibits the same branch.
Spike: factor `3`, `start = 0`, `peak = 1`, `end = 3`, queried at `now = 3`. -/
theorem spike_multiplier_at_end_counterexample :
    (Pattern.multiplier (fun _ => 1/20) (fun _ => 0)
        ⟨true, 3, 1, 1, 10, 1, 2⟩ 1 ⟨true, 0, 1, 3, 100, false, 0, 0⟩ 3).1 = 11/10 ∧
    (Pattern.multiplier (fun _ => 1/20) (fun _ => 0)
        ⟨true, 3, 1, 1, 10, 1, 2⟩ 1 ⟨true, 0, 1, 3, 100, false, 0, 0⟩ 3).2.spiking = true ∧
    ¬ ((11:ℚ)/10 = 1) := by
  refine ⟨?_, ?_, by norm_num⟩ <;>
    norm_num [Pattern.multiplier, Pattern.calculateSpikeMultiplier]

/-- C7 (amended): for an active automatic spike with `start < peak < end` and
factor `spike_factor`, the multiplier at `now` is: for `now < peak`, the
linear interpolation from `1.0` at `start` to `spike_factor` at `peak`; for
`peak ≤ now ≤ end` (end inclusive, since `After` is strict), the decay value
`1 + (spike_factor − 1) · exp(−3·(now−peak)/(end−peak))`; and for `now > end`
the generator returns to idle, schedules the next spike, and returns `1.0`. -/
theorem spike_multiplier_phases (expf logf : ℚ → ℚ) (cfg : Pattern.PoissonCfg)
    (u : ℚ) (st : Pattern.SpikeState) (now : ℚ)
    (hen : cfg.enabled = true) (hsp : st.spiking = true)
    (hman : st.manualSpike = false)
    (h1 : st.spikeStart < st.spikePeak) (h2 : st.spikePeak < st.spikeEnd)
    (hmin : 0 ≤ cfg.minInterval) (hmm : cfg.minInterval ≤ cfg.maxInterval) :
    (now < st.spikePeak →
      Pattern.multiplier expf logf cfg u st now =
        (1 + (cfg.spikeFactor - 1) *
          ((now - st.spikeStart) / (st.spikePeak - st.spikeStart)), st)) ∧
    (st.spikePeak ≤ now → now ≤ st.spikeEnd →
      Pattern.multiplier expf logf cfg u st now =
        (1 + (cfg.spikeFactor - 1) *
          expf (-3 * ((now - st.spikePeak) / (st.spikeEnd - st.spikePeak))), st)) ∧
    (st.spikeEnd < now →
      (Pattern.multiplier expf logf cfg u st now).1 = 1 ∧
      (Pattern.multiplier expf logf cfg u st now).2.spiking = false ∧
      (Pattern.multiplier expf logf cfg u st now).2.nextSpikeTime =
        Pattern.scheduleNextSpike logf cfg u now) := by
  refine ⟨?_, ?_, ?_⟩
  · intro hlt
    have hne : ¬ (st.spikeEnd < now) := by linarith
    simp [Pattern.multiplier, Pattern.calculateSpikeMultiplier, hen, hsp, hman,
      hne, hlt, sub_ne_zero.mpr (ne_of_gt h1)]
  · intro hge hle
    have hne : ¬ (st.spikeEnd < now) := not_lt.mpr hle
    have hnp : ¬ (now < st.spikePeak) := not_lt.mpr hge
    simp [Pattern.multiplier, Pattern.calculateSpikeMultiplier, hen, hsp, hman,
      hne, hnp, sub_ne_zero.mpr (ne_of_gt h2)]
  · intro hgt
    have hsched : now ≤ Pattern.scheduleNextSpike logf cfg u now :=
      Pattern.scheduleNextSpike_ge logf cfg u now hmin hmm
    simp [Pattern.multiplier, hen, hsp, hman, hgt, not_lt.mpr hsched]

/-- Witness for the amended C7: spike with factor `3`, `start = 0`, `peak = 1`,
`end = 3`, with `expf (−3) = 1/20` standing in for `math.Exp`, evaluated in
the ramp-up phase at `now = 1/2`. -/
theorem spike_multiplier_phases_witness :
    Pattern.multiplier (fun _ => 1/20) (fun _ => 0)
        ⟨true, 3, 1, 1, 10, 1, 2⟩ 1 ⟨true, 0, 1, 3, 100, false, 0, 0⟩ (1/2) =
      (1 + ((3:ℚ) - 1) * (((1:ℚ)/2 - 0) / (1 - 0)), ⟨true, 0, 1, 3, 100, false, 0, 0⟩) :=
  (spike_multiplier_phases (fun _ => 1/20) (fun _ => 0) ⟨true, 3, 1, 1, 10, 1, 2⟩ 1
    ⟨true, 0, 1, 3, 100, false, 0, 0⟩ (1/2) rfl rfl rfl (by norm_num) (by norm_num)
    (by norm_num) (by norm_num)).1 (by norm_num)

open Discovery

/-- C2 counterexample: on the sample sequence `[10, …, 100]` the code's
`percentile` (index `⌊(n−1)·p/100⌋ = ⌊8.55⌋ = 8`) returns `90` for p95 and
`90` for p99 (index `⌊8.91⌋ = 8`), not `100` as the claim states. -/
theorem percentile_p95_p99_counterexample :
    percentile [10, 20, 30, 40, 50, 60, 70, 80, 90, 100] 95 = 90 ∧
    percentile [10, 20, 30, 40, 50, 60, 70, 80, 90, 100] 99 = 90 ∧
    ((90 : ℚ) ≠ 100) := by
  refine ⟨?_, ?_, by norm_num⟩ <;>
    · norm_num [percentile, goTrunc, List.insertionSort, List.orderedInsert,
        List.getD]
      decide

/-- C2 (amended): with the samples `[10, …, 100]` ms all within the window
(all recorded at `now`, window `60`), the analyzer returns `p95 = 90`,
`p99 = 90`, `p50 = 50` and `avg = 55`, the percentile being the element at
index `⌊(n−1)·p/100⌋` of the ascending sort. -/
theorem analyzer_percentiles_on_ten_samples :
    getP95Latency ⟨[10, 20, 30, 40, 50, 60, 70, 80, 90, 100],
      [100, 100, 100, 100, 100, 100, 100, 100, 100, 100], 10, 0, 60, 100000⟩ 100 = 90 ∧
    getP99Latency ⟨[10, 20, 30, 40, 50, 60, 70, 80, 90, 100],
      [100, 100, 100, 100, 100, 100, 100, 100, 100, 100], 10, 0, 60, 100000⟩ 100 = 90 ∧
    percentile [10, 20, 30, 40, 50, 60, 70, 80, 90, 100] 50 = 50 ∧
    getAvgLatency ⟨[10, 20, 30, 40, 50, 60, 70, 80, 90, 100],
      [100, 100, 100, 100, 100, 100, 100, 100, 100, 100], 10, 0, 60, 100000⟩ 100 = 55 := by
  have hw : getWindowLatencies ⟨[10, 20, 30, 40, 50, 60, 70, 80, 90, 100],
      [100, 100, 100, 100, 100, 100, 100, 100, 100, 100], 10, 0, 60, 100000⟩ 100 =
      [10, 20, 30, 40, 50, 60, 70, 80, 90, 100] := by
    norm_num [getWindowLatencies, firstAfterIdx, firstAfterAux]
  refine ⟨?_, ?_, ?_, ?_⟩
  · rw [getP95Latency, hw]
    norm_num [percentile, goTrunc, List.insertionSort, List.orderedInsert, List.getD]
    decide
  · rw [getP99Latency, hw]
    norm_num [percentile, goTrunc, List.insertionSort, List.orderedInsert, List.getD]
    decide
  · norm_num [percentile, goTrunc, List.insertionSort, List.orderedInsert, List.getD]
    decide
  · rw [getAvgLatency, hw]
    norm_num
    decide

/-- C5: the code contradicts the claim (and its own doc comment) when no
sample is inside the window: with a single sample of `42` ms recorded at time
`0`, window `5`, queried at `now = 100` (so `now − ts = 100 > 5`), the scan in
`getWindowLatencies` finds no timestamp after the cutoff, leaves
`startIdx = 0`, and returns the stale sample; p95, p99 and avg all report `42`
where the claim requires `0`.  The spec-side window is empty. -/
theorem stale_sample_used_when_window_empty :
    specWindowLatencies ⟨[42], [0], 1, 0, 5, 100000⟩ 100 = [] ∧
    getWindowLatencies ⟨[42], [0], 1, 0, 5, 100000⟩ 100 = [42] ∧
    getP95Latency ⟨[42], [0], 1, 0, 5, 100000⟩ 100 = 42 ∧
    getP99Latency ⟨[42], [0], 1, 0, 5, 100000⟩ 100 = 42 ∧
    getAvgLatency ⟨[42], [0], 1, 0, 5, 100000⟩ 100 = 42 := by
  have hw : getWindowLatencies ⟨[42], [0], 1, 0, 5, 100000⟩ 100 = [42] := by
    norm_num [getWindowLatencies, firstAfterIdx, firstAfterAux]
  refine ⟨?_, ?_, ?_, ?_, ?_⟩
  · norm_num [specWindowLatencies]
  · exact hw
  · rw [getP95Latency, hw]
    norm_num [percentile, goTrunc, List.insertionSort, List.orderedInsert, List.getD]
  · rw [getP99Latency, hw]
    norm_num [percentile, goTrunc, List.insertionSort, List.orderedInsert, List.getD]
  · rw [getAvgLatency, hw]
    norm_num

/-- C4 counterexample: a discovery run over range `[10, 1000]` (not yet
converged) whose first step is interrupted by cancellation (`runStep` returns
`nil`): `run` returns early and its deferred handler moves the still-running
state to `completed`, not `failed`; no `Result` is produced. -/
theorem discovery_midstep_cancel_counterexample :
    runLoop ⟨10, 1000, 500, 5, 1/10⟩ 0 0 ⟨10, 10, 1000, 0, 0, 0⟩
      [RunEvent.cancelMidStep] = some ⟨DiscState.completed, none⟩ ∧
    DiscState.completed ≠ DiscState.failed := by
  refine ⟨?_, by decide⟩
  norm_num [runLoop, hasConverged]

/-- C4 (amended): if cancellation fires during a step of a not-yet-converged
discovery run, the run returns with no `Result` (`GetResult` stays `nil`) and
the controller's state becomes `completed` (set by the deferred handler), not
`failed`. -/
theorem discovery_midstep_cancel_completes (cfg : DiscoveryCfg)
    (snapP95 snapErr : ℚ) (s : SearchState) (evs : List RunEvent)
    (hnc : hasConverged cfg s = false) :
    runLoop cfg snapP95 snapErr s (RunEvent.cancelMidStep :: evs) =
      some { state := DiscState.completed, result := none } := by
  simp [runLoop, hnc]

/-- Witness for the amended C4 on the concrete non-converged run of the
counterexample's configuration, with a different start state. -/
theorem discovery_midstep_cancel_completes_witness :
    runLoop ⟨10, 1000, 500, 5, 1/10⟩ 0 0 ⟨505, 10, 1000, 10, 0, 1⟩
      [RunEvent.cancelMidStep] =
      some { state := DiscState.completed, result := none } :=
  discovery_midstep_cancel_completes ⟨10, 1000, 500, 5, 1/10⟩ 0 0
    ⟨505, 10, 1000, 10, 0, 1⟩ [] (by norm_num [hasConverged])

lemma recordLatency_totalRequests (a : Analyzer) (l : ℚ) (e : Bool) (t : ℚ) :
    (recordLatency a l e t).totalRequests = a.totalRequests + 1 := by
  simp only [recordLatency]
  split_ifs <;> rfl

lemma recordLatency_totalErrors (a : Analyzer) (l : ℚ) (e : Bool) (t : ℚ) :
    (recordLatency a l e t).totalErrors =
      a.totalErrors + (if e then 1 else 0) := by
  cases e <;> simp only [recordLatency] <;> split_ifs <;> simp

lemma stepFold_totals (recs : List (ℚ × Bool × ℚ)) :
    ∀ a : Analyzer,
      (recs.foldl (fun a r => recordLatency a r.1 r.2.1 r.2.2) a).totalRequests =
        a.totalRequests + recs.length ∧
      (recs.foldl (fun a r => recordLatency a r.1 r.2.1 r.2.2) a).totalErrors =
        a.totalErrors + errCount recs := by
  induction recs with
  | nil => intro a; simp [errCount]
  | cons r rest ih =>
    intro a
    obtain ⟨h1, h2⟩ := ih (recordLatency a r.1 r.2.1 r.2.2)
    constructor
    · rw [List.foldl_cons, h1, recordLatency_totalRequests]
      simp only [List.length_cons]
      push_cast
      ring
    · rw [List.foldl_cons, h2, recordLatency_totalErrors, errCount]
      ring

/-- C10: the stability judgement of a binary-search step is made against the
cumulative error rate accumulated since discovery start.  `runStep` calls
`ResetWindow`, which keeps `totalRequests`/`totalErrors`; the step's analyzer
totals are therefore the pre-step totals plus the step's own counts, and the
`Stable` flag equals `isStable` applied to the rate
`(total_errors) / (total_requests) · 100` over all requests since `Start`,
not the rate over the step's requests alone. -/
theorem runStep_stability_uses_cumulative_rate (cfg : DiscoveryCfg)
    (a0 : Analyzer) (recs : List (ℚ × Bool × ℚ)) (now : ℚ) :
    (resetWindow a0).totalRequests = a0.totalRequests ∧
    (resetWindow a0).totalErrors = a0.totalErrors ∧
    (stepAnalyzer a0 recs).totalRequests = a0.totalRequests + recs.length ∧
    (stepAnalyzer a0 recs).totalErrors = a0.totalErrors + errCount recs ∧
    runStepStable cfg a0 recs now =
      isStable cfg (getP95Latency (stepAnalyzer a0 recs) now)
        (if a0.totalRequests + (recs.length : ℤ) = 0 then 0
          else ((a0.totalErrors + errCount recs : ℤ) : ℚ) /
            ((a0.totalRequests + (recs.length : ℤ)) : ℚ) * 100) := by
  have hreq : (stepAnalyzer a0 recs).totalRequests =
      a0.totalRequests + recs.length := (stepFold_totals recs (resetWindow a0)).1
  have herr : (stepAnalyzer a0 recs).totalErrors =
      a0.totalErrors + errCount recs := (stepFold_totals recs (resetWindow a0)).2
  refine ⟨rfl, rfl, hreq, herr, ?_⟩
  simp only [runStepStable, getErrorRate, hreq, herr]
  congr 1
  split_ifs with h
  · rfl
  · push_cast
    ring

open Controller in
/-- C6: `Daemon.Pause` only clears `status.Triggered`; the generate loop does
not read that flag, so a tick after `pause()` submits exactly as before.  In
particular, with one healthy target and an open pool of capacity `100`, the
tick after `pause()` still submits `10` jobs, where the claim requires `0`.
The first conjunct states that a pause changes nothing a generate tick reads,
for every daemon state. -/
theorem pause_does_not_stop_submission :
    (∀ (d : Daemon.DaemonState) (wts : List Target)
      (healthy : String → Bool) (draws : List ℤ),
      generateTick (Daemon.pause d) wts healthy draws =
        generateTick d wts healthy draws) ∧
    Daemon.pause ⟨true, ⟨false, 0, 100, false⟩⟩ =
      ⟨false, ⟨false, 0, 100, false⟩⟩ ∧
    generateTick ⟨false, ⟨false, 0, 100, false⟩⟩ [⟨"t", 50⟩]
      (fun _ => true) [] = some (⟨false, 10, 100, false⟩, 10) := by
  refine ⟨fun d wts healthy draws => rfl, rfl, by decide⟩

end Kar98k
